import Mathlib

/-!
Verification of the edge diagnostic service (`src/main.py`).

The service exposes two handlers of interest:

* `call_b` (lines 34-104): captures the inbound request, performs exactly one
  guarded internal HTTP call to `{APP_B_URL}/diagnostic`, and returns a
  comparison object.  The internal call is wrapped in `try/except Exception`,
  so the handler always returns normally and FastAPI replies with HTTP 200.
* `test_load_balancing` (lines 107-159): performs 20 sequential internal
  calls, each with a freshly constructed `httpx.AsyncClient`, records a
  per-attempt result, tallies the `client_ip` field of each successful
  response in a Python dict, and derives a load-balancing verdict.

The embedding below models each internal call by its observable outcome
(`ok` with the parsed body, or `exc` with the caught exception's message),
the Python dict by an insertion-ordered association list with distinct keys,
and the probe loop by a fold over `List.range 20`.  App B's JSON body is
modelled by the only field the probe reads, `client_ip`, which per the wire
contract is a string when present (`none` models an absent key, in which
case `data.get("client_ip", "unknown")` yields `"unknown"`).
-/

namespace DebugA

/-- `APP_B_URL` default (line 21): the configured internal base URL. -/
def APP_B_URL : String := "http://test-header-b:8080"

/-- Outcome of the guarded internal call in `call_b` (lines 68-80): either the
parsed JSON body (left abstract as `β`, since `call_b` embeds it verbatim and
never inspects it), or the message of the exception caught by the
`except Exception as e:` clause — connection failure, timeout, or a non-JSON
body raised by `response.json()` all land here. -/
inductive BCallOutcome (β : Type) where
  | ok (body : β)
  | exc (msg : String)
deriving DecidableEq, Repr

/-- The outbound request `call_b` issues (lines 71-73): URL, query parameters
and the timeout in seconds. -/
structure InternalRequest where
  url : String
  params : List (String × Int)
  timeout_seconds : Nat
deriving DecidableEq, Repr

/-- Line 72: `params = {"fib": fib} if fib is not None else {}`. -/
def call_b_params (fib : Option Int) : List (String × Int) :=
  match fib with
  | some k => [("fib", k)]
  | none => []

/-- Lines 71-73: the internal call targets the diagnostic path with the
optional `fib` parameter and a 60-second timeout. -/
def call_b_request (fib : Option Int) : InternalRequest :=
  { url := APP_B_URL ++ "/diagnostic"
    params := call_b_params fib
    timeout_seconds := 60 }

/-- The `internal_call_to_app_b` sub-object of the `/call-b` response body
(lines 93-99). -/
structure InternalCallInfo where
  url_used : String
  fib_passed_to_b : Option Int
  call_success : Bool
  error : Option String
deriving DecidableEq, Repr

/-- The `app_b_response` sub-object (lines 100-103); `data` is `none` exactly
when the Python value is `None`. -/
structure AppBResponse (β : Type) where
  data : Option β
deriving DecidableEq, Repr

/-- The fields of the `/call-b` response body that depend on the handler's
logic (lines 82-104).  The pass-through request-snapshot fields
(`app_a_pod_name`, `app_a_received`, the static description strings) are
independent of the internal call and are omitted. -/
structure CallBResponse (β : Type) where
  fib_param : Option Int
  internal_call_to_app_b : InternalCallInfo
  app_b_response : AppBResponse β
deriving DecidableEq, Repr

/-- The body `call_b` returns, as a function of the supplied `fib` query
parameter and of the internal call's outcome (lines 68-104).  On `ok` the
body is embedded verbatim with `call_success = true` and no error; on `exc`
the handler sets `app_b_response = None`, `call_success = False`,
`error_message = str(e)` and still returns the complete object. -/
def call_b {β : Type} (fib : Option Int) (outcome : BCallOutcome β) :
    CallBResponse β :=
  match outcome with
  | .ok body =>
      { fib_param := fib
        internal_call_to_app_b :=
          { url_used := APP_B_URL
            fib_passed_to_b := fib
            call_success := true
            error := none }
        app_b_response := { data := some body } }
  | .exc msg =>
      { fib_param := fib
        internal_call_to_app_b :=
          { url_used := APP_B_URL
            fib_passed_to_b := fib
            call_success := false
            error := some msg }
        app_b_response := { data := none } }

/-- An HTTP reply as seen by the external caller: status code and body. -/
structure HttpReply (α : Type) where
  status : Nat
  body : α
deriving DecidableEq, Repr

/-- The full HTTP reply of `GET /call-b`.  Every exception of the internal
call is caught inside the handler (lines 77-80) and the code after the
`try/except` is a plain dict construction, so the handler always returns
normally and FastAPI's default status for a normal return is 200. -/
def call_b_endpoint {β : Type} (fib : Option Int) (outcome : BCallOutcome β) :
    HttpReply (CallBResponse β) :=
  { status := 200, body := call_b fib outcome }

/-! ## The load-balancing probe -/

/-- Outcome of one probe attempt's internal call (lines 119-135): `ok` carries
the response body, modelled by its `client_ip` field — a string when the key
is present (per App B's wire contract), `none` when absent; `exc` carries the
message of the exception caught by the `except Exception as e:` clause
(connection failure, timeout, non-JSON body). -/
inductive AttemptOutcome where
  | ok (client_ip : Option String)
  | exc (msg : String)
deriving DecidableEq, Repr

/-- One entry of `detailed_results` (lines 126-141).  `error = none` models
the success-branch dict, which has no `"error"` key; `error = some msg`
models the failure-branch dict, which has one. -/
structure ResultRecord where
  call_number : Nat
  pod_ip : Option String
  success : Bool
  error : Option String
deriving DecidableEq, Repr

/-- Python `d.get(k, v0)` on the tally dict: the value at the first entry
with key `k`, else the default. -/
def dictGetD : List (String × Nat) → String → Nat → Nat
  | [], _, v0 => v0
  | p :: rest, k, v0 => if p.1 = k then p.2 else dictGetD rest k v0

/-- Python `d[k] = v` on the tally dict: replace the value at the first entry
with key `k`, keeping its position, else append a new entry (dicts preserve
insertion order). -/
def dictInsert : List (String × Nat) → String → Nat → List (String × Nat)
  | [], k, v => [(k, v)]
  | p :: rest, k, v => if p.1 = k then (k, v) :: rest else p :: dictInsert rest k v

/-- The keys of the tally dict, in insertion order. -/
def dictKeys (d : List (String × Nat)) : List String :=
  d.map Prod.fst

/-- Python `sum(d.values())`. -/
def sumValues (d : List (String × Nat)) : Nat :=
  (d.map Prod.snd).sum

/-- The loop state of `test_load_balancing`: the `results` list and the
`ip_counts` dict (lines 114-115). -/
structure ProbeState where
  results : List ResultRecord
  ip_counts : List (String × Nat)
deriving DecidableEq, Repr

/-- One iteration of the probe loop (lines 118-141), at loop index `i`
(0-based; `call_number = i + 1`).  On success the extracted
`pod_ip = data.get("client_ip", "unknown")` is appended to `results` and
tallied via `ip_counts[pod_ip] = ip_counts.get(pod_ip, 0) + 1`; on an
exception the failure record is appended and the dict is untouched. -/
def probeStep (fetch : Nat → AttemptOutcome) (s : ProbeState) (i : Nat) :
    ProbeState :=
  match fetch i with
  | .ok cip =>
      let pod_ip := cip.getD "unknown"
      { results := s.results ++
          [{ call_number := i + 1, pod_ip := some pod_ip, success := true,
             error := none }]
        ip_counts := dictInsert s.ip_counts pod_ip
          (dictGetD s.ip_counts pod_ip 0 + 1) }
  | .exc msg =>
      { results := s.results ++
          [{ call_number := i + 1, pod_ip := none, success := false,
             error := some msg }]
        ip_counts := s.ip_counts }

/-- The probe loop, `for i in range(n)` starting from the empty state, with
`fetch i` the outcome of the internal call made at loop index `i`.  The
source fixes `n = 20` (line 118). -/
def probeLoopN (fetch : Nat → AttemptOutcome) (n : Nat) : ProbeState :=
  (List.range n).foldl (probeStep fetch) { results := [], ip_counts := [] }

/-- The `/test-load-balancing` response body (lines 147-159). -/
structure ProbeResponse where
  app_b_instances_expected : Nat
  unique_pod_ips_seen : Nat
  load_balancing_working : Bool
  ip_distribution : List (String × Nat)
  detailed_results : List ResultRecord
  conclusion : String
deriving DecidableEq, Repr

/-- The `test_load_balancing` handler (lines 107-159): run the 20-iteration
loop, then `unique_ips = len(ip_counts)` and
`load_balanced = unique_ips > 1`. -/
def test_load_balancing (fetch : Nat → AttemptOutcome) : ProbeResponse :=
  let s := probeLoopN fetch 20
  let unique_ips := s.ip_counts.length
  let load_balanced := decide (unique_ips > 1)
  { app_b_instances_expected := 2
    unique_pod_ips_seen := unique_ips
    load_balancing_working := load_balanced
    ip_distribution := s.ip_counts
    detailed_results := s.results
    conclusion :=
      if load_balanced then
        "✅ Load balancing IS working - saw " ++ toString unique_ips ++
          " different pod IPs"
      else
        "❌ Load balancing NOT working - all calls went to same pod" }

/-- The record a single loop iteration appends, as a function of the
attempt's outcome; `probeLoopN` produces exactly these, in order. -/
def recordFor (fetch : Nat → AttemptOutcome) (i : Nat) : ResultRecord :=
  match fetch i with
  | .ok cip =>
      { call_number := i + 1, pod_ip := some (cip.getD "unknown"),
        success := true, error := none }
  | .exc msg =>
      { call_number := i + 1, pod_ip := none, success := false,
        error := some msg }

/-- The `j`-th entry of `detailed_results` (0-based), with a dummy default
out of range. -/
def probeRecord (fetch : Nat → AttemptOutcome) (j : Nat) : ResultRecord :=
  (test_load_balancing fetch).detailed_results.getD j
    { call_number := 0, pod_ip := none, success := false, error := none }

/-! ## Client lifecycle of the probe

Lines 119-133: each loop iteration enters `async with httpx.AsyncClient() as
client:` — constructing a fresh client object — issues one `client.get`
inside that scope, and leaves the scope before the next iteration starts;
`async with` closes the client both on normal completion and when the body
raises.  We record this as an event trace, identifying each client object by
the loop index at which it is constructed. -/

/-- A connection-lifecycle event of the probe loop: construction of the
`httpx.AsyncClient` for attempt `attempt`, the single `GET` it performs, and
its closure when the `async with` block is left. -/
inductive ClientEvent where
  | acquire (attempt : Nat)
  | get (attempt : Nat)
  | release (attempt : Nat)
deriving DecidableEq, Repr

/-- The events of one loop iteration (lines 121-133): the `async with` entry
constructs the client, the body issues one `GET` with it, and the `async
with` exit — reached on success and on exception alike — closes it. -/
def attemptEvents (i : Nat) : List ClientEvent :=
  [ClientEvent.acquire i, ClientEvent.get i, ClientEvent.release i]

/-- The connection-lifecycle trace of the whole 20-iteration probe loop. -/
def probeClientTrace : List ClientEvent :=
  (List.range 20).foldl (fun acc i => acc ++ attemptEvents i) []

/-- The clients constructed along a trace, in order. -/
def acquiredClients (tr : List ClientEvent) : List Nat :=
  tr.filterMap (fun e => match e with | .acquire i => some i | _ => none)

/-- The clients closed along a trace, in order. -/
def releasedClients (tr : List ClientEvent) : List Nat :=
  tr.filterMap (fun e => match e with | .release i => some i | _ => none)

/-- The clients constructed but not yet closed after a trace. -/
def liveClients (tr : List ClientEvent) : List Nat :=
  tr.foldl
    (fun live e =>
      match e with
      | .acquire i => i :: live
      | .release i => live.erase i
      | .get _ => live) []

/-! ## Dictionary lemmas -/

theorem sumValues_dictInsert_succ (d : List (String × Nat)) (k : String) :
    sumValues (dictInsert d k (dictGetD d k 0 + 1)) = sumValues d + 1 := by
  induction d with
  | nil => simp [dictInsert, dictGetD, sumValues]
  | cons p rest ih =>
    by_cases h : p.1 = k
    · simp [dictInsert, dictGetD, sumValues, h]
      omega
    · simp [dictInsert, dictGetD, sumValues, h] at ih ⊢
      omega

theorem dictKeys_dictInsert (d : List (String × Nat)) (k : String) (v : Nat) :
    dictKeys (dictInsert d k v) =
      if k ∈ dictKeys d then dictKeys d else dictKeys d ++ [k] := by
  induction d with
  | nil => simp [dictInsert, dictKeys]
  | cons p rest ih =>
    by_cases h : p.1 = k
    · simp [dictInsert, dictKeys, h]
    · have hne : ¬ (k = p.1) := fun hk => h hk.symm
      have hk : dictKeys (p :: dictInsert rest k v)
          = p.1 :: dictKeys (dictInsert rest k v) := rfl
      have hcons : dictKeys (p :: rest) = p.1 :: dictKeys rest := rfl
      simp only [dictInsert, if_neg h, hk, ih, hcons]
      by_cases hm : k ∈ dictKeys rest
      · rw [if_pos hm, if_pos (by simp [List.mem_cons, hm])]
      · rw [if_neg hm, if_neg (by simp [List.mem_cons, hne, hm])]
        simp

theorem mem_dictKeys_dictInsert_self (d : List (String × Nat)) (k : String) (v : Nat) :
    k ∈ dictKeys (dictInsert d k v) := by
  rw [dictKeys_dictInsert]
  by_cases h : k ∈ dictKeys d <;> simp [h]

theorem mem_dictKeys_dictInsert_of_mem (d : List (String × Nat)) (a k : String) (v : Nat)
    (h : a ∈ dictKeys d) : a ∈ dictKeys (dictInsert d k v) := by
  rw [dictKeys_dictInsert]
  by_cases hm : k ∈ dictKeys d <;> simp [hm, h]

theorem mem_dictKeys_of_mem_dictInsert (d : List (String × Nat)) (a k : String) (v : Nat)
    (h : a ∈ dictKeys (dictInsert d k v)) : a = k ∨ a ∈ dictKeys d := by
  rw [dictKeys_dictInsert] at h
  by_cases hm : k ∈ dictKeys d
  · simp [hm] at h
    exact Or.inr h
  · simp [hm] at h
    tauto

theorem nodup_dictKeys_dictInsert (d : List (String × Nat)) (k : String) (v : Nat)
    (h : (dictKeys d).Nodup) : (dictKeys (dictInsert d k v)).Nodup := by
  rw [dictKeys_dictInsert]
  by_cases hm : k ∈ dictKeys d
  · simp [hm, h]
  · rw [if_neg hm]
    simp [List.nodup_append, h, hm]

/-! ## Probe-loop lemmas -/

theorem probeLoopN_succ (fetch : Nat → AttemptOutcome) (n : Nat) :
    probeLoopN fetch (n + 1) = probeStep fetch (probeLoopN fetch n) n := by
  simp [probeLoopN, List.range_succ]

theorem probeLoopN_results (fetch : Nat → AttemptOutcome) (n : Nat) :
    (probeLoopN fetch n).results = (List.range n).map (recordFor fetch) := by
  induction n with
  | zero => rfl
  | succ n ih =>
    rw [probeLoopN_succ, List.range_succ, List.map_append]
    cases hf : fetch n <;> simp [probeStep, recordFor, hf, ih]

theorem probeLoopN_sum (fetch : Nat → AttemptOutcome) (n : Nat) :
    sumValues (probeLoopN fetch n).ip_counts
      = ((probeLoopN fetch n).results.filter (fun r => r.success)).length := by
  induction n with
  | zero => rfl
  | succ n ih =>
    rw [probeLoopN_succ]
    cases hf : fetch n
    · simp [probeStep, hf, sumValues_dictInsert_succ, List.filter_append, ih]
    · simp [probeStep, hf, List.filter_append, ih]

theorem probeLoopN_nodup (fetch : Nat → AttemptOutcome) (n : Nat) :
    (dictKeys (probeLoopN fetch n).ip_counts).Nodup := by
  induction n with
  | zero => simp [probeLoopN, dictKeys]
  | succ n ih =>
    rw [probeLoopN_succ]
    cases hf : fetch n
    · simpa [probeStep, hf] using nodup_dictKeys_dictInsert _ _ _ ih
    · simpa [probeStep, hf] using ih

theorem probeLoopN_key_mem (fetch : Nat → AttemptOutcome) (n j : Nat)
    (hj : j < n) (cip : Option String) (hf : fetch j = AttemptOutcome.ok cip) :
    cip.getD "unknown" ∈ dictKeys (probeLoopN fetch n).ip_counts := by
  induction n with
  | zero => omega
  | succ n ih =>
    rw [probeLoopN_succ]
    rcases Nat.lt_succ_iff_lt_or_eq.mp hj with hlt | heq
    · cases hg : fetch n
      · simp only [probeStep, hg]
        exact mem_dictKeys_dictInsert_of_mem _ _ _ _ (ih hlt)
      · simpa [probeStep, hg] using ih hlt
    · subst heq
      simp [probeStep, hf]
      exact mem_dictKeys_dictInsert_self _ _ _

theorem probeLoopN_key_source (fetch : Nat → AttemptOutcome) (n : Nat) :
    ∀ k ∈ dictKeys (probeLoopN fetch n).ip_counts,
      ∃ j, j < n ∧ ∃ cip, fetch j = AttemptOutcome.ok cip ∧ cip.getD "unknown" = k := by
  induction n with
  | zero => simp [probeLoopN, dictKeys]
  | succ n ih =>
    intro k hk
    rw [probeLoopN_succ] at hk
    cases hg : fetch n
    · rename_i cip
      simp [probeStep, hg] at hk
      rcases mem_dictKeys_of_mem_dictInsert _ _ _ _ hk with heq | hmem
      · exact ⟨n, Nat.lt_succ_self n, cip, hg, heq.symm⟩
      · rcases ih k hmem with ⟨j, hj, w⟩
        exact ⟨j, Nat.lt_succ_of_lt hj, w⟩
    · simp [probeStep, hg] at hk
      rcases ih k hk with ⟨j, hj, w⟩
      exact ⟨j, Nat.lt_succ_of_lt hj, w⟩

theorem probeRecord_eq (fetch : Nat → AttemptOutcome) (j : Nat) (hj : j < 20) :
    probeRecord fetch j = recordFor fetch j := by
  have hres : (test_load_balancing fetch).detailed_results
      = (List.range 20).map (recordFor fetch) := by
    simpa [test_load_balancing] using probeLoopN_results fetch 20
  rw [probeRecord, hres]
  rw [List.getD_eq_getElem?_getD]
  simp [List.getElem?_map, List.getElem?_range, hj]

/-! ## The claims -/

/-- Claim C1: for every request to `/call-b` in which the internal call raises
an exception (connection failure, timeout, non-JSON body), the handler catches
it and still replies with HTTP 200, `call_success = false`, a non-null
`error_message`, and `app_b_response.data = null`; the failure is never
propagated as an HTTP error. -/
theorem call_b_internal_failure_still_complete (β : Type) (fib : Option Int) (msg : String) :
    (call_b_endpoint fib (BCallOutcome.exc msg : BCallOutcome β)).status = 200
    ∧ (call_b_endpoint fib (BCallOutcome.exc msg : BCallOutcome β)).body.internal_call_to_app_b.call_success = false
    ∧ (call_b_endpoint fib (BCallOutcome.exc msg : BCallOutcome β)).body.internal_call_to_app_b.error = some msg
    ∧ (call_b_endpoint fib (BCallOutcome.exc msg : BCallOutcome β)).body.internal_call_to_app_b.error ≠ none
    ∧ (call_b_endpoint fib (BCallOutcome.exc msg : BCallOutcome β)).body.app_b_response.data = none := by
  refine ⟨rfl, rfl, rfl, ?_, rfl⟩
  simp [call_b_endpoint, call_b]

/-- Witness for C1, at `β := Unit`, `fib := some 7`,
`msg := "connection refused"`. -/
theorem call_b_internal_failure_still_complete_witness :
    (call_b_endpoint (some 7) (BCallOutcome.exc "connection refused" : BCallOutcome Unit)).status = 200
    ∧ (call_b_endpoint (some 7) (BCallOutcome.exc "connection refused" : BCallOutcome Unit)).body.internal_call_to_app_b.call_success = false
    ∧ (call_b_endpoint (some 7) (BCallOutcome.exc "connection refused" : BCallOutcome Unit)).body.internal_call_to_app_b.error = some "connection refused"
    ∧ (call_b_endpoint (some 7) (BCallOutcome.exc "connection refused" : BCallOutcome Unit)).body.internal_call_to_app_b.error ≠ none
    ∧ (call_b_endpoint (some 7) (BCallOutcome.exc "connection refused" : BCallOutcome Unit)).body.app_b_response.data = none :=
  call_b_internal_failure_still_complete Unit (some 7) "connection refused"

/-- Claim C5: a supplied `fib=K` is forwarded unmodified as the `fib` query
parameter of the internal call to the diagnostic path, and echoed in the
response's `fib_param` and `fib_passed_to_b`; with `fib` absent no parameter
is sent. -/
theorem call_b_forwards_fib_param (β : Type) (k : Int) (outcome : BCallOutcome β) :
    (call_b_request (some k)).params = [("fib", k)]
    ∧ (call_b_request (some k)).url = APP_B_URL ++ "/diagnostic"
    ∧ (call_b_request none).params = []
    ∧ (call_b (some k) outcome).fib_param = some k
    ∧ (call_b (some k) outcome).internal_call_to_app_b.fib_passed_to_b = some k := by
  cases outcome <;> simp [call_b, call_b_request, call_b_params]

/-- Witness for C5, at `β := Unit`, `k := 9`, `outcome := ok ()`. -/
theorem call_b_forwards_fib_param_witness :
    (call_b_request (some 9)).params = [("fib", 9)]
    ∧ (call_b_request (some 9)).url = APP_B_URL ++ "/diagnostic"
    ∧ (call_b_request none).params = []
    ∧ (call_b (some 9) (BCallOutcome.ok ())).fib_param = some 9
    ∧ (call_b (some 9) (BCallOutcome.ok ())).internal_call_to_app_b.fib_passed_to_b = some 9 :=
  call_b_forwards_fib_param Unit 9 (BCallOutcome.ok ())

/-- Claim C2: for every run of `/test-load-balancing`, `unique_pod_ips_seen`
equals the number of distinct identifiers (keys) in `ip_distribution` — all
keys are strings, hence non-null — and `load_balancing_working` is true iff
that count exceeds 1. -/
theorem probe_unique_count_and_verdict (fetch : Nat → AttemptOutcome) :
    (test_load_balancing fetch).unique_pod_ips_seen
      = (dictKeys (test_load_balancing fetch).ip_distribution).dedup.length
    ∧ ((test_load_balancing fetch).load_balancing_working = true
      ↔ 1 < (dictKeys (test_load_balancing fetch).ip_distribution).dedup.length) := by
  have hnd : (dictKeys (test_load_balancing fetch).ip_distribution).Nodup := by
    simpa [test_load_balancing] using probeLoopN_nodup fetch 20
  have hdedup := List.dedup_eq_self.mpr hnd
  rw [hdedup]
  constructor
  · simp [test_load_balancing, dictKeys]
  · simp [test_load_balancing, dictKeys]

/-- Witness for C2, at a run whose attempts all fail. -/
theorem probe_unique_count_and_verdict_witness :
    (test_load_balancing (fun _ => AttemptOutcome.exc "boom")).unique_pod_ips_seen
      = (dictKeys (test_load_balancing (fun _ => AttemptOutcome.exc "boom")).ip_distribution).dedup.length
    ∧ ((test_load_balancing (fun _ => AttemptOutcome.exc "boom")).load_balancing_working = true
      ↔ 1 < (dictKeys (test_load_balancing (fun _ => AttemptOutcome.exc "boom")).ip_distribution).dedup.length) :=
  probe_unique_count_and_verdict (fun _ => AttemptOutcome.exc "boom")

/-- Claim C3: for every run of `/test-load-balancing`, the sum of the values
of `ip_distribution` equals the number of `detailed_results` records with
`success = true`. -/
theorem probe_distribution_sum_eq_successes (fetch : Nat → AttemptOutcome) :
    sumValues (test_load_balancing fetch).ip_distribution
      = ((test_load_balancing fetch).detailed_results.filter (fun r => r.success)).length := by
  simpa [test_load_balancing] using probeLoopN_sum fetch 20

/-- Witness for C3, at a run mixing successes and failures. -/
theorem probe_distribution_sum_eq_successes_witness :
    sumValues (test_load_balancing
        (fun i => if i % 3 = 0 then AttemptOutcome.ok (some "pod-1")
                  else AttemptOutcome.exc "timeout")).ip_distribution
      = ((test_load_balancing
        (fun i => if i % 3 = 0 then AttemptOutcome.ok (some "pod-1")
                  else AttemptOutcome.exc "timeout")).detailed_results.filter
          (fun r => r.success)).length :=
  probe_distribution_sum_eq_successes
    (fun i => if i % 3 = 0 then AttemptOutcome.ok (some "pod-1")
              else AttemptOutcome.exc "timeout")

/-- Claim C4: every run completes all 20 attempts regardless of failures:
`detailed_results` has exactly 20 records, numbered 1 through 20 in order,
and every key of `ip_distribution` stems from a successful attempt (a failed
attempt adds no key). -/
theorem probe_completes_all_twenty_attempts (fetch : Nat → AttemptOutcome) :
    (test_load_balancing fetch).detailed_results.length = 20
    ∧ (test_load_balancing fetch).detailed_results.map (fun r => r.call_number)
        = (List.range 20).map (fun i => i + 1)
    ∧ ∀ k ∈ dictKeys (test_load_balancing fetch).ip_distribution,
        ∃ j, j < 20 ∧ ∃ cip, fetch j = AttemptOutcome.ok cip ∧ cip.getD "unknown" = k := by
  have hres : (test_load_balancing fetch).detailed_results
      = (List.range 20).map (recordFor fetch) := by
    simpa [test_load_balancing] using probeLoopN_results fetch 20
  refine ⟨by rw [hres]; simp, ?_, ?_⟩
  · rw [hres]
    simp only [List.map_map]
    apply List.map_congr_left
    intro i _
    cases hf : fetch i <;> simp [recordFor, hf]
  · simpa [test_load_balancing] using probeLoopN_key_source fetch 20

/-- Witness for C4, at a run whose attempts all fail. -/
theorem probe_completes_all_twenty_attempts_witness :
    (test_load_balancing (fun _ => AttemptOutcome.exc "refused")).detailed_results.length = 20
    ∧ (test_load_balancing (fun _ => AttemptOutcome.exc "refused")).detailed_results.map
        (fun r => r.call_number) = (List.range 20).map (fun i => i + 1)
    ∧ ∀ k ∈ dictKeys (test_load_balancing (fun _ => AttemptOutcome.exc "refused")).ip_distribution,
        ∃ j, j < 20 ∧ ∃ cip, (fun _ => AttemptOutcome.exc "refused") j = AttemptOutcome.ok cip
          ∧ cip.getD "unknown" = k :=
  probe_completes_all_twenty_attempts (fun _ => AttemptOutcome.exc "refused")

/-- Claim C6: if all 20 internal calls succeed and every body carries the
identifier `"pod-1"`, the probe returns `unique_pod_ips_seen = 1`,
`load_balancing_working = false` and `ip_distribution = {"pod-1": 20}`. -/
theorem probe_single_pod_scenario :
    (test_load_balancing (fun _ => AttemptOutcome.ok (some "pod-1"))).unique_pod_ips_seen = 1
    ∧ (test_load_balancing (fun _ => AttemptOutcome.ok (some "pod-1"))).load_balancing_working = false
    ∧ (test_load_balancing (fun _ => AttemptOutcome.ok (some "pod-1"))).ip_distribution
        = [("pod-1", 20)] := by
  decide

/-- Claim C7: if all 20 internal calls succeed and the identifiers alternate
`"pod-1"`/`"pod-2"`, the probe returns
`ip_distribution = {"pod-1": 10, "pod-2": 10}` and
`load_balancing_working = true`. -/
theorem probe_alternating_pods_scenario :
    (test_load_balancing
        (fun i => AttemptOutcome.ok (some (if i % 2 = 0 then "pod-1" else "pod-2")))).ip_distribution
      = [("pod-1", 10), ("pod-2", 10)]
    ∧ (test_load_balancing
        (fun i => AttemptOutcome.ok (some (if i % 2 = 0 then "pod-1" else "pod-2")))).load_balancing_working
      = true := by
  decide

/-- Claim C8: each of the 20 probe attempts constructs its own fresh client
(the 20 acquisitions are pairwise distinct), every constructed client is
closed, and at no point is more than one client alive — so the client of one
attempt is closed before the next attempt's client exists, and no client or
connection is reused across attempts. -/
theorem probe_fresh_client_per_attempt :
    acquiredClients probeClientTrace = List.range 20
    ∧ releasedClients probeClientTrace = List.range 20
    ∧ (acquiredClients probeClientTrace).Nodup
    ∧ liveClients probeClientTrace = []
    ∧ ∀ n : Nat, (liveClients (probeClientTrace.take n)).length ≤ 1 := by
  refine ⟨by decide, by decide, by decide, by decide, ?_⟩
  intro n
  by_cases h : n ≤ 60
  · exact (by decide :
      ∀ m, m ≤ 60 → (liveClients (probeClientTrace.take m)).length ≤ 1) n h
  · have hlen : probeClientTrace.length = 60 := by decide
    rw [List.take_of_length_le (by omega)]
    decide

/-- Witness for C8, instantiating the prefix bound at `n := 4`. -/
theorem probe_fresh_client_per_attempt_witness :
    (liveClients (probeClientTrace.take 4)).length ≤ 1 :=
  probe_fresh_client_per_attempt.2.2.2.2 4

/-- Claim C9: an attempt whose call succeeds with a body lacking `client_ip`
is recorded as `pod_ip = "unknown"` with `success = true` and no error, the
key `"unknown"` enters `ip_distribution`, and such attempts can flip
`load_balancing_working` to true (concretely: 19 calls answered by `"pod-1"`
plus one body without `client_ip` yield a true verdict). -/
theorem probe_missing_client_ip_unknown (fetch : Nat → AttemptOutcome) (j : Nat)
    (hj : j < 20) (hf : fetch j = AttemptOutcome.ok none) :
    probeRecord fetch j
      = { call_number := j + 1, pod_ip := some "unknown", success := true, error := none }
    ∧ "unknown" ∈ dictKeys (test_load_balancing fetch).ip_distribution
    ∧ (test_load_balancing
        (fun i => if i = 5 then AttemptOutcome.ok none
                  else AttemptOutcome.ok (some "pod-1"))).load_balancing_working = true := by
  refine ⟨?_, ?_, by decide⟩
  · rw [probeRecord_eq fetch j hj]
    simp [recordFor, hf]
  · simpa [test_load_balancing] using probeLoopN_key_mem fetch 20 j hj none hf

/-- Witness for C9, at a run whose bodies all lack `client_ip`, `j := 0`. -/
theorem probe_missing_client_ip_unknown_witness :
    probeRecord (fun _ => AttemptOutcome.ok none) 0
      = { call_number := 0 + 1, pod_ip := some "unknown", success := true, error := none }
    ∧ "unknown" ∈ dictKeys (test_load_balancing (fun _ => AttemptOutcome.ok none)).ip_distribution
    ∧ (test_load_balancing
        (fun i => if i = 5 then AttemptOutcome.ok none
                  else AttemptOutcome.ok (some "pod-1"))).load_balancing_working = true :=
  probe_missing_client_ip_unknown (fun _ => AttemptOutcome.ok none) 0 (by decide) rfl

/-- Claim C10: the `detailed_results` records appear in attempt order with
`call_number` equal to the record's 1-based position; a successful record
has a present `pod_ip` and no `error` key, a failed record has `pod_ip =
null` and an `error` string. -/
theorem probe_detailed_results_shape (fetch : Nat → AttemptOutcome) (j : Nat) (hj : j < 20) :
    (probeRecord fetch j).call_number = j + 1
    ∧ ((probeRecord fetch j).success = true →
        (probeRecord fetch j).error = none ∧ ∃ s, (probeRecord fetch j).pod_ip = some s)
    ∧ ((probeRecord fetch j).success = false →
        (probeRecord fetch j).pod_ip = none ∧ ∃ m, (probeRecord fetch j).error = some m) := by
  rw [probeRecord_eq fetch j hj]
  cases hf : fetch j <;> simp [recordFor, hf]

/-- Witness for C10, at a run whose attempts all fail, `j := 2`. -/
theorem probe_detailed_results_shape_witness :
    (probeRecord (fun _ => AttemptOutcome.exc "boom") 2).call_number = 2 + 1
    ∧ ((probeRecord (fun _ => AttemptOutcome.exc "boom") 2).success = true →
        (probeRecord (fun _ => AttemptOutcome.exc "boom") 2).error = none
        ∧ ∃ s, (probeRecord (fun _ => AttemptOutcome.exc "boom") 2).pod_ip = some s)
    ∧ ((probeRecord (fun _ => AttemptOutcome.exc "boom") 2).success = false →
        (probeRecord (fun _ => AttemptOutcome.exc "boom") 2).pod_ip = none
        ∧ ∃ m, (probeRecord (fun _ => AttemptOutcome.exc "boom") 2).error = some m) :=
  probe_detailed_results_shape (fun _ => AttemptOutcome.exc "boom") 2 (by decide)

end DebugA
